import Mathlib

/-!
Shallow embedding of the `pix` checkout widget (AbacatePay + Supabase):
the provider client (`services/abacateService.ts`), the persistence
client (`services/supabaseService.ts`), and the orchestrator / polling
engine in `App.tsx`.  Network and database effects are modelled by
passing the outcome of each external call as an explicit argument;
JavaScript exceptions are modelled with `Except`, and functions whose
source catches every exception are given exception-free return types.
-/

namespace Pix

/-- Payment status tracked by the orchestrator
(`useState<'PENDING' | 'PAID' | 'FAILED'>` in `App.tsx`). -/
inductive PayStatus
  | PENDING
  | PAID
  | FAILED
deriving DecidableEq

/-- A thrown JavaScript error as inspected by `request` in
`abacateService.ts`: only its `name` and `message` fields are read. -/
structure FetchError where
  name : String
  message : String
deriving DecidableEq

/-- The heuristic on line 13 of `abacateService.ts`:
`error.name === 'TypeError' && error.message === 'Failed to fetch'`. -/
def corsSignature (e : FetchError) : Bool :=
  e.name == "TypeError" && e.message == "Failed to fetch"

/-- `request` from `abacateService.ts` (lines 6-20).  The outcomes of the
direct fetch and of the proxied fetch are passed in as arguments: the
direct call is tried first; on a thrown error matching `corsSignature`
the proxied call's outcome is returned (one retry, no further fallback);
any other thrown error is re-thrown. -/
def request {α : Type} (direct proxy : Except FetchError α) : Except FetchError α :=
  match direct with
  | .ok r => .ok r
  | .error e => if corsSignature e then proxy else .error e

/-- The `json.data` object of a successful `pixQrCode/create` response as
read by `createBilling`: fields `id`, `amount`, `status`, `brCode`
(`none` when absent; the code also rejects an empty string, JS falsiness),
`brCodeBase64`. -/
structure CreateData where
  id : String
  amount : Nat
  status : String
  brCode : Option String
  brCodeBase64 : String
deriving DecidableEq

/-- The body of an HTTP response to `pixQrCode/create`, as far as
`createBilling` inspects it: not JSON at all (so `response.json()` or
`JSON.parse` throws), JSON without a `data` field (the error-branch
fields `error` / `data` are carried pre-stringified), or JSON whose
`data` field parses as `CreateData` (`none` when `data` is null). -/
inductive RespBody
  | notJson (text : String)
  | errJson (errorField : Option String) (dataField : Option String)
  | dataJson (data : Option CreateData)
deriving DecidableEq

/-- An HTTP response as read by `createBilling`: `ok` flag, numeric
status, and its body. -/
structure Response where
  ok : Bool
  status : Nat
  body : RespBody
deriving DecidableEq

/-- JavaScript `a || b` on strings where `a` may be absent: the empty
string is falsy. -/
def jsOr (a : Option String) (b : String) : String :=
  match a with
  | some s => if s = "" then b else s
  | none => b

/-- The error message built by `createBilling` for a non-success HTTP
response (lines 55-64 of `abacateService.ts`):
`errorData.error || (errorData.data && JSON.stringify(errorData.data)) || errorMessage`,
with the default message when the body is not JSON.  `JSON.stringify` of
an object is abstracted as a non-empty opaque rendering. -/
def httpErrorMessage (status : Nat) (body : RespBody) : String :=
  let dft := "Request failed with status " ++ toString status
  match body with
  | .notJson _ => dft
  | .errJson ef df => jsOr ef (jsOr df dft)
  | .dataJson d =>
    match d with
    | some cd => "[object data " ++ cd.id ++ "]"
    | none => dft

/-- The errors `createBilling` can throw: a re-thrown fetch/transport
error, a non-success HTTP response, an unparseable success body, or a
parsed body lacking `data.brCode`. -/
inductive BillingError
  | fetchErr (e : FetchError)
  | httpError (msg : String)
  | jsonParse
  | invalidFormat
deriving DecidableEq

/-- The `pix` sub-object of `AbacateBillingResponse` (`types.ts`). -/
structure PixInfo where
  code : String
  qrcode : String
deriving DecidableEq

/-- `AbacateBillingResponse` from `types.ts`. -/
structure AbacateBillingResponse where
  id : String
  url : String
  amount : Nat
  status : String
  pix : PixInfo
deriving DecidableEq

/-- `CustomerData` from `types.ts`: the four form fields, as typed
(phone and cpf carry display punctuation). -/
structure CustomerData where
  name : String
  email : String
  phone : String
  cpf : String
deriving DecidableEq

/-- The customer sub-object of the `pixQrCode/create` payload
(`abacateService.ts` lines 35-40): `cellphone` and `taxId` are the
formatted strings exactly as typed. -/
structure PayloadCustomer where
  name : String
  cellphone : String
  email : String
  taxId : String
deriving DecidableEq

/-- The `pixQrCode/create` request payload (`abacateService.ts` lines
31-44).  `externalId` is `"pix-" + Date.now()`; the clock reading is an
explicit argument `now`. -/
structure BillingPayload where
  amount : Nat
  expiresIn : Nat
  description : String
  customer : PayloadCustomer
  externalId : String
deriving DecidableEq

/-- The payload built by `createBilling` (lines 31-44). -/
def createBillingPayload (customer : CustomerData) (amountInCents : Nat)
    (now : Nat) : BillingPayload :=
  { amount := amountInCents
    expiresIn := 3600
    description := "Pagamento Pix - Abacate Pay"
    customer :=
      { name := customer.name
        cellphone := customer.phone
        email := customer.email
        taxId := customer.cpf }
    externalId := "pix-" ++ toString now }

/-- `createBilling` from `abacateService.ts` (lines 22-92).  The request
it sends carries `createBillingPayload customer amountInCents now` with
`apiKey` in the Authorization header; the network outcomes of the direct
and proxied fetches are the arguments `direct` and `proxy`.  Response
handling: a thrown fetch error is re-thrown by the final catch; a
non-success response throws the constructed message; an unparseable
success body makes `response.json()` throw (re-thrown); a body whose
`data.brCode` is missing or empty throws the invalid-format error;
otherwise the `AbacateBillingResponse` is assembled with `url := ""`. -/
def createBilling (apiKey : String) (customer : CustomerData)
    (amountInCents : Nat) (now : Nat)
    (direct proxy : Except FetchError Response) :
    Except BillingError AbacateBillingResponse :=
  match request direct proxy with
  | .error e => .error (.fetchErr e)
  | .ok resp =>
    if resp.ok = false then
      .error (.httpError (httpErrorMessage resp.status resp.body))
    else
      match resp.body with
      | .notJson _ => .error .jsonParse
      | .errJson _ _ => .error .invalidFormat
      | .dataJson none => .error .invalidFormat
      | .dataJson (some d) =>
        match d.brCode with
        | none => .error .invalidFormat
        | some code =>
          if code = "" then .error .invalidFormat
          else
            .ok { id := d.id
                  url := ""
                  amount := d.amount
                  status := d.status
                  pix := { code := code, qrcode := d.brCodeBase64 } }

/-- One element of the `json.data` array of a `pixQrCode/list` response,
as far as `checkBillingStatus` reads it: its `id` and `status`. -/
structure ListItem where
  id : String
  status : String
deriving DecidableEq

/-- The body of a `pixQrCode/list` response: not JSON (`response.json()`
throws), JSON whose `data` is not an array, or the parsed array. -/
inductive ListBody
  | notJson
  | otherJson
  | listJson (items : List ListItem)
deriving DecidableEq

/-- An HTTP response as read by `checkBillingStatus`. -/
structure ListResponse where
  ok : Bool
  body : ListBody
deriving DecidableEq

/-- `checkBillingStatus` from `abacateService.ts` (lines 94-121).  Every
exception path of the source is caught and degraded, so the model's
return type is a plain `String` (the function never throws): a thrown
fetch error, a non-success response, an unparseable body, a `data` that
is not an array, or an array without the billing id all yield
`"PENDING"`; a matching array element yields its `status`. -/
def checkBillingStatus (apiKey billingId : String)
    (direct proxy : Except FetchError ListResponse) : String :=
  match request direct proxy with
  | .error _ => "PENDING"
  | .ok resp =>
    if resp.ok = false then "PENDING"
    else
      match resp.body with
      | .notJson => "PENDING"
      | .otherJson => "PENDING"
      | .listJson items =>
        match items.find? (fun it => it.id == billingId) with
        | some it => it.status
        | none => "PENDING"

/-- Outcome of the remote `app_config` read in `getAbacateApiKey`
(`supabaseService.ts` lines 27-31): the awaited call threw, or it
returned a structured error with a code, or it succeeded and `data.value`
is the given string (`none` when `data` is null or has no `value`). -/
inductive RemoteReadOutcome
  | thrown
  | dbError (code : String)
  | ok (value : Option String)
deriving DecidableEq

/-- The error codes `getAbacateApiKey` treats as "config not found"
(table missing or row missing), line 36 of `supabaseService.ts`. -/
def knownGetCodes : List String := ["PGRST205", "42P01", "PGRST116"]

/-- `getAbacateApiKey` from `supabaseService.ts` (lines 20-50).
`configured` is whether the `supabase` client handle is non-null;
`localFallback` is `localStorage.getItem('abacate_api_key_fallback')`;
`remote` is the outcome of the remote read.  All exception paths of the
source are caught, so the model returns a plain `Option String` (the
function never throws).  Unconfigured client: local fallback.  Remote
structured error with a known code: local fallback; with any other code:
`null`.  Thrown exception: local fallback.  Success: `data.value || null`
(the empty string is falsy). -/
def getAbacateApiKey (configured : Bool) (localFallback : Option String)
    (remote : RemoteReadOutcome) : Option String :=
  if configured = false then localFallback
  else
    match remote with
    | .thrown => localFallback
    | .dbError code =>
      if code ∈ knownGetCodes then localFallback else none
    | .ok value =>
      match value with
      | some s => if s = "" then none else some s
      | none => none

/-- Outcome of the remote `app_config` upsert in `saveAbacateApiKeyToDB`
(`supabaseService.ts` lines 60-62). -/
inductive UpsertOutcome
  | thrown
  | dbError (code : String)
  | ok
deriving DecidableEq

/-- The error codes `saveAbacateApiKeyToDB` treats as "table missing",
line 66 of `supabaseService.ts`. -/
def knownSaveCodes : List String := ["PGRST205", "42P01"]

/-- `saveAbacateApiKeyToDB` from `supabaseService.ts` (lines 52-82).
Returns the new state of the local fallback slot
(`localStorage` key `abacate_api_key_fallback`); the exception-free
return type records that the function never fails its caller: the
`throw` on an unrecognised error code (line 73) is inside the same `try`
and is caught by the `catch` on line 78, which writes the fallback.
Unconfigured client: write fallback.  Known table-missing code: write
fallback.  Other structured error: the self-caught throw ends in the
fallback write.  Thrown exception: write fallback.  Success: the
fallback is removed (line 76). -/
def saveAbacateApiKeyToDB (configured : Bool) (localFallback : Option String)
    (apiKey : String) (remote : UpsertOutcome) : Option String :=
  if configured = false then some apiKey
  else
    match remote with
    | .thrown => some apiKey
    | .dbError code =>
      if code ∈ knownSaveCodes then some apiKey
      else some apiKey
    | .ok => none

/-- `maxAttempts` in `startPolling` (`App.tsx` line 114). -/
def maxAttempts : Nat := 120

/-- The interval passed to `setInterval` in `startPolling`
(`App.tsx` line 138), in milliseconds. -/
def pollIntervalMs : Nat := 5000

/-- The state of one polling loop started by `startPolling`:
the tick counter `attempts`, whether the interval is still scheduled
(`active` becomes false once `clearInterval` runs), and the
orchestrator's payment status. -/
structure PollState where
  attempts : Nat
  active : Bool
  paymentStatus : PayStatus
deriving DecidableEq

/-- What one polling tick did: how many provider status checks it issued
and which `updateTransactionStatus(billingId, status)` calls it made. -/
structure PollLog where
  checks : Nat
  updates : List (String × String)
deriving DecidableEq

/-- One tick of the `setInterval` callback in `startPolling`
(`App.tsx` lines 116-137).  `status` is what `checkBillingStatus` would
return if the tick queries it (`checkBillingStatus` never throws, so the
catch on line 135 is unreachable from the status check).  A tick on a
cleared interval never runs: modelled as a no-op.  Otherwise the counter
is incremented first; past `maxAttempts` the interval is cleared with no
check and no state change; on `"PAID"` the status becomes `PAID`, the
interval is cleared and the update is persisted; on `"CANCELED"` or
`"FAILED"` the status becomes `FAILED` and the observed string is
persisted; on anything else nothing changes and the loop continues. -/
def pollTick (billingId : String) (s : PollState) (status : String) :
    PollState × PollLog :=
  if s.active = false then (s, ⟨0, []⟩)
  else
    let a := s.attempts + 1
    if a > maxAttempts then
      (⟨a, false, s.paymentStatus⟩, ⟨0, []⟩)
    else if status = "PAID" then
      (⟨a, false, .PAID⟩, ⟨1, [(billingId, "PAID")]⟩)
    else if status = "CANCELED" ∨ status = "FAILED" then
      (⟨a, false, .FAILED⟩, ⟨1, [(billingId, status)]⟩)
    else
      (⟨a, true, s.paymentStatus⟩, ⟨1, []⟩)

/-- A run of the polling loop over a sequence of would-be provider
statuses, folding `pollTick` and accumulating the log. -/
def pollRun (billingId : String) (s : PollState) :
    List String → PollState × PollLog
  | [] => (s, ⟨0, []⟩)
  | st :: rest =>
    let r1 := pollTick billingId s st
    let r2 := pollRun billingId r1.1 rest
    (r2.1, ⟨r1.2.checks + r2.2.checks, r1.2.updates ++ r2.2.updates⟩)

/-- `DEFAULT_AMOUNT_CENTS` from `App.tsx` line 11 (R$ 1,00). -/
def DEFAULT_AMOUNT_CENTS : Nat := 100

/-- Modelled from the spec: `cleanString` is imported in `App.tsx` from
`./utils/formatters`, a file absent from the repository snapshot.  The
spec describes the formatter utilities as pure string transforms and
states that the persisted transaction's `customer_cpf` is digits-only
(punctuation stripped), so `cleanString` keeps exactly the digit
characters of its input. -/
def cleanString (s : String) : String :=
  String.mk (s.toList.filter Char.isDigit)

/-- `Transaction` from `types.ts`, restricted to the fields `App.tsx`
writes when persisting (lines 167-176). -/
structure Transaction where
  customer_name : String
  customer_email : String
  customer_cpf : String
  abacate_billing_id : String
  pix_code : String
  pix_url : String
  amount : Nat
  status : String
deriving DecidableEq

/-- The transaction record `handleSubmit` passes to `saveTransaction`
(`App.tsx` lines 167-176): name/email as typed, cpf cleaned to digits,
billing id / pix code / url / amount taken from the billing response,
status `"PENDING"`. -/
def submitTx (formData : CustomerData) (billing : AbacateBillingResponse) :
    Transaction :=
  { customer_name := formData.name
    customer_email := formData.email
    customer_cpf := cleanString formData.cpf
    abacate_billing_id := billing.id
    pix_code := billing.pix.code
    pix_url := billing.url
    amount := billing.amount
    status := "PENDING" }

/-- The user-visible message of a `BillingError` (`err.message` as seen
by `handleSubmit`'s catch).  The runtime text of a JSON parse failure is
abstracted. -/
def billingErrorMessage : BillingError → String
  | .fetchErr e => e.message
  | .httpError msg => msg
  | .jsonParse => "[JSON parse failure]"
  | .invalidFormat => "Invalid response format from Abacate Pay. brCode not found."

/-- JavaScript `s.includes(pat)`: whether `pat` occurs as a contiguous
substring of `s`. -/
def includesStr (s pat : String) : Bool :=
  s.toList.tails.any (fun t => pat.toList.isPrefixOf t)

/-- The message normalisation in `handleSubmit`'s catch
(`App.tsx` lines 183-185). -/
def normalizeMsg (msg : String) : String :=
  let m1 := if msg = "Failed to fetch"
    then "Erro de conexão. Verifique se o Supabase está acessível." else msg
  if includesStr m1 "Supabase not initialized"
    then "Conecte ao Supabase primeiro." else m1

/-- The external calls `handleSubmit` can make, in order: the key fetch
from the database, the billing creation (with the amount it requests),
the transaction insert, and the start of the polling loop. -/
inductive Call
  | keyFetch
  | createBillingCall (amount : Nat)
  | saveTx (t : Transaction)
  | startPoll (billingId : String)
deriving DecidableEq

/-- The environment a single `handleSubmit` run observes:
whether `isSupabaseConfigured` is set, the result of `getAbacateApiKey`
(which never throws), and the result `createBilling` would produce
(`saveTransaction` and `startPolling` do not throw). -/
structure SubmitEnv where
  isSupabaseConfigured : Bool
  keyResult : Option String
  billingResult : Except BillingError AbacateBillingResponse

/-- The orchestrator state after one `handleSubmit` run that started
from the idle state (no transaction, status `PENDING`), together with
the list of external calls made. -/
structure SubmitResult where
  calls : List Call
  transaction : Option AbacateBillingResponse
  paymentStatus : PayStatus
  error : Option String
deriving DecidableEq

/-- `handleSubmit` from `App.tsx` (lines 141-194) with the constant
`DEFAULT_AMOUNT_CENTS` in its `createBilling` call (line 162)
generalised to the parameter `amount`; this is the spec's UI surface
`submit(customerData, amountMinorUnits)` applied to the source logic,
used to compare the source against the spec's claims about submitted
amounts.  Flow: an unconfigured Supabase aborts with an error before any
call; a missing key aborts after the key fetch; a billing-creation error
aborts with the normalised message; on success the transaction is
stored, the status set to `PENDING`, the record persisted and polling
started. -/
def handleSubmitAmt (amount : Nat) (env : SubmitEnv)
    (formData : CustomerData) : SubmitResult :=
  if env.isSupabaseConfigured = false then
    { calls := []
      transaction := none
      paymentStatus := .PENDING
      error := some "Conecte-se ao Supabase nas configurações primeiro." }
  else
    match env.keyResult with
    | none =>
      { calls := [.keyFetch]
        transaction := none
        paymentStatus := .PENDING
        error := some (normalizeMsg
          "API Key do Abacate Pay não encontrada no Banco de Dados. Configure-a no menu.") }
    | some _ =>
      match env.billingResult with
      | .error e =>
        { calls := [.keyFetch, .createBillingCall amount]
          transaction := none
          paymentStatus := .PENDING
          error := some (normalizeMsg (billingErrorMessage e)) }
      | .ok billing =>
        { calls := [.keyFetch, .createBillingCall amount,
                    .saveTx (submitTx formData billing),
                    .startPoll billing.id]
          transaction := some billing
          paymentStatus := .PENDING
          error := none }

/-- `handleSubmit` as written in the source: the amount requested from
the provider is always `DEFAULT_AMOUNT_CENTS` (`App.tsx` line 162); the
UI surface takes no amount. -/
def handleSubmit (env : SubmitEnv) (formData : CustomerData) : SubmitResult :=
  handleSubmitAmt DEFAULT_AMOUNT_CENTS env formData

/-- A concrete billing response used to instantiate scenarios: id
`"b1"`, amount 150, status `"PENDING"`, a brCode — the provider reply of
the spec's submission scenario. -/
def sampleBilling : AbacateBillingResponse :=
  { id := "b1"
    url := ""
    amount := 150
    status := "PENDING"
    pix := { code := "000201", qrcode := "img" } }

/-- A concrete customer with display punctuation in phone and cpf, used
to instantiate scenarios. -/
def sampleCustomer : CustomerData :=
  { name := "Joao da Silva"
    email := "joao@exemplo.com"
    phone := "(11) 99999-9999"
    cpf := "123.456.789-09" }

/-- The three screens `App.tsx` can render (lines 260, 341): the form
when no transaction exists, the confirmation screen when the status is
`PAID`, and the awaiting-payment screen otherwise. -/
inductive Screen
  | form
  | confirmed
  | awaiting
deriving DecidableEq

/-- Which screen the component renders for a given transaction and
payment status (`App.tsx` lines 260 and 341). -/
def uiScreen (transaction : Option AbacateBillingResponse)
    (ps : PayStatus) : Screen :=
  match transaction with
  | none => .form
  | some _ => if ps = .PAID then .confirmed else .awaiting

/-! ## Theorems -/

/-- A tick of a cleared interval never runs: it is a no-op. -/
theorem pollTick_inactive (b : String) (s : PollState) (st : String)
    (hs : s.active = false) : pollTick b s st = (s, ⟨0, []⟩) := by
  simp [pollTick, hs]

/-- Once the interval is cleared, a run makes no status checks and no
persistence updates, and the state never changes. -/
theorem pollRun_inactive (b : String) (s : PollState)
    (hs : s.active = false) :
    ∀ statuses, pollRun b s statuses = (s, ⟨0, []⟩) := by
  intro statuses
  induction statuses with
  | nil => rfl
  | cons st rest ih =>
    simp [pollRun, pollTick_inactive b s st hs, ih]

/-- C1: on an active tick within the attempt budget, a returned
`"PAID"` clears the interval, sets the payment status to `PAID` and
persists `(billingId, "PAID")` exactly once, with no further status
checks or updates on any continuation of the run; a returned
`"CANCELED"` or `"FAILED"` clears the interval, sets the status to
`FAILED` and persists the observed status exactly once, again with no
further checks; any other returned value leaves the status and the
interval untouched (only the attempt counter advances) and the loop
continues. -/
theorem polling_terminal_tick (b : String) (s : PollState) (st : String)
    (rest : List String) (hact : s.active = true)
    (hatt : s.attempts < maxAttempts) :
    (st = "PAID" →
      (pollTick b s st).1 = ⟨s.attempts + 1, false, .PAID⟩ ∧
      (pollTick b s st).2 = ⟨1, [(b, "PAID")]⟩ ∧
      pollRun b (pollTick b s st).1 rest = ((pollTick b s st).1, ⟨0, []⟩)) ∧
    ((st = "CANCELED" ∨ st = "FAILED") →
      (pollTick b s st).1 = ⟨s.attempts + 1, false, .FAILED⟩ ∧
      (pollTick b s st).2 = ⟨1, [(b, st)]⟩ ∧
      pollRun b (pollTick b s st).1 rest = ((pollTick b s st).1, ⟨0, []⟩)) ∧
    (st ≠ "PAID" → st ≠ "CANCELED" → st ≠ "FAILED" →
      (pollTick b s st).1 = ⟨s.attempts + 1, true, s.paymentStatus⟩ ∧
      (pollTick b s st).2 = ⟨1, []⟩) := by
  have hle : ¬ (s.attempts + 1 > maxAttempts) := by omega
  refine ⟨?_, ?_, ?_⟩
  · intro hp
    subst hp
    have h1 : (pollTick b s "PAID").1 = ⟨s.attempts + 1, false, .PAID⟩ := by
      simp [pollTick, hact, hle]
    refine ⟨h1, by simp [pollTick, hact, hle], ?_⟩
    exact pollRun_inactive b _ (by rw [h1]) rest
  · intro hp
    have h1 : (pollTick b s st).1 = ⟨s.attempts + 1, false, .FAILED⟩ := by
      rcases hp with hp | hp <;> subst hp <;> simp [pollTick, hact, hle]
    refine ⟨h1, ?_, ?_⟩
    · rcases hp with hp | hp <;> subst hp <;> simp [pollTick, hact, hle]
    · exact pollRun_inactive b _ (by rw [h1]) rest
  · intro h1 h2 h3
    constructor <;> simp [pollTick, hact, hle, h1, h2, h3]

/-- C1 witness: at billing id `"b1"`, a fresh active loop, a tick
returning `"PAID"`, and an empty continuation. -/
theorem polling_terminal_tick_witness :
    (pollTick "b1" ⟨0, true, .PENDING⟩ "PAID").1 =
      ⟨1, false, .PAID⟩ ∧
    (pollTick "b1" ⟨0, true, .PENDING⟩ "PAID").2 =
      ⟨1, [("b1", "PAID")]⟩ ∧
    pollRun "b1" (pollTick "b1" ⟨0, true, .PENDING⟩ "PAID").1 ["PAID"] =
      ((pollTick "b1" ⟨0, true, .PENDING⟩ "PAID").1, ⟨0, []⟩) :=
  (polling_terminal_tick "b1" ⟨0, true, .PENDING⟩ "PAID" ["PAID"]
    rfl (by decide)).1 rfl

/-- C3: the polling policy constants are 5000 ms and 120 attempts, and a
tick whose incremented counter exceeds the maximum clears the interval
silently: no status check, no persistence update, the payment status
stays `PENDING`, every continuation of the run is a no-op, and the UI
still renders the awaiting-payment screen. -/
theorem polling_timeout_silent (b : String) (st : String)
    (rest : List String) (s : PollState) (tx : AbacateBillingResponse)
    (hact : s.active = true) (hatt : maxAttempts ≤ s.attempts)
    (hps : s.paymentStatus = .PENDING) :
    maxAttempts = 120 ∧ pollIntervalMs = 5000 ∧
    (pollTick b s st).1 = ⟨s.attempts + 1, false, .PENDING⟩ ∧
    (pollTick b s st).2 = ⟨0, []⟩ ∧
    pollRun b (pollTick b s st).1 rest = ((pollTick b s st).1, ⟨0, []⟩) ∧
    uiScreen (some tx) (pollTick b s st).1.paymentStatus = .awaiting := by
  have hgt : s.attempts + 1 > maxAttempts := by omega
  have h1 : (pollTick b s st).1 = ⟨s.attempts + 1, false, .PENDING⟩ := by
    simp [pollTick, hact, hgt, hps]
  refine ⟨rfl, rfl, h1, by simp [pollTick, hact, hgt], ?_, ?_⟩
  · exact pollRun_inactive b _ (by rw [h1]) rest
  · rw [h1]
    simp [uiScreen]

/-- C3 witness: attempt counter already at 120, a tick that would even
have returned `"PAID"`, and a continuation of two more would-be
statuses. -/
theorem polling_timeout_silent_witness :
    (pollTick "b1" ⟨120, true, .PENDING⟩ "PAID").1 =
      ⟨121, false, .PENDING⟩ ∧
    (pollTick "b1" ⟨120, true, .PENDING⟩ "PAID").2 = ⟨0, []⟩ ∧
    uiScreen (some sampleBilling)
      (pollTick "b1" ⟨120, true, .PENDING⟩ "PAID").1.paymentStatus =
      .awaiting :=
  have h := polling_timeout_silent "b1" "PAID" ["PAID", "PAID"]
    ⟨120, true, .PENDING⟩ sampleBilling rfl (by decide) rfl
  ⟨h.2.2.1, h.2.2.2.1, h.2.2.2.2.2⟩

/-- C2: `checkBillingStatus` never raises (its return type is a plain
string: every exception path of the source is caught) and degrades to
`"PENDING"` on every failure: a transport error thrown on both the
direct and the proxied path, a non-success HTTP response, a body that is
not JSON, a JSON body whose `data` is not an array, and an array that
does not contain the billing id. -/
theorem checkBillingStatus_never_raises (apiKey b : String)
    (e e2 : FetchError) (proxy : Except FetchError ListResponse)
    (resp : ListResponse) (items : List ListItem)
    (hok : resp.ok = false)
    (hfind : items.find? (fun it => it.id == b) = none) :
    checkBillingStatus apiKey b (.error e) (.error e2) = "PENDING" ∧
    checkBillingStatus apiKey b (.ok resp) proxy = "PENDING" ∧
    checkBillingStatus apiKey b (.ok ⟨true, .notJson⟩) proxy = "PENDING" ∧
    checkBillingStatus apiKey b (.ok ⟨true, .otherJson⟩) proxy = "PENDING" ∧
    checkBillingStatus apiKey b (.ok ⟨true, .listJson items⟩) proxy =
      "PENDING" := by
  refine ⟨?_, ?_, ?_, ?_, ?_⟩
  · by_cases hc : corsSignature e = true <;>
      simp [checkBillingStatus, request, hc]
  · simp [checkBillingStatus, request, hok]
  · simp [checkBillingStatus, request]
  · simp [checkBillingStatus, request]
  · simp [checkBillingStatus, request, hfind]

/-- C2 witness: a transport error on both paths, a 500 response, the
unparseable and non-array bodies, and a list holding only another id. -/
theorem checkBillingStatus_never_raises_witness :
    checkBillingStatus "sk" "b1"
      (.error ⟨"TypeError", "Failed to fetch"⟩)
      (.error ⟨"TypeError", "Failed to fetch"⟩) = "PENDING" ∧
    checkBillingStatus "sk" "b1"
      (.ok ⟨false, .listJson [⟨"b1", "PAID"⟩]⟩)
      (.ok ⟨true, .notJson⟩) = "PENDING" ∧
    checkBillingStatus "sk" "b1" (.ok ⟨true, .notJson⟩)
      (.ok ⟨true, .notJson⟩) = "PENDING" ∧
    checkBillingStatus "sk" "b1" (.ok ⟨true, .otherJson⟩)
      (.ok ⟨true, .notJson⟩) = "PENDING" ∧
    checkBillingStatus "sk" "b1"
      (.ok ⟨true, .listJson [⟨"b2", "PAID"⟩]⟩)
      (.ok ⟨true, .notJson⟩) = "PENDING" :=
  checkBillingStatus_never_raises "sk" "b1"
    ⟨"TypeError", "Failed to fetch"⟩ ⟨"TypeError", "Failed to fetch"⟩
    (.ok ⟨true, .notJson⟩) ⟨false, .listJson [⟨"b1", "PAID"⟩]⟩
    [⟨"b2", "PAID"⟩] rfl (by decide)

/-- C9: both provider operations go through `request`, which uses the
direct outcome when it succeeded; retries exactly once through the
CORS relay when the direct call threw the `"Failed to fetch"`
`TypeError` signature, the relay outcome becoming the result with no
further fallback; propagates any other thrown error without a relay
retry; and when `request` itself ends in a thrown error, `createBilling`
propagates it to its caller while `checkBillingStatus` degrades it to
`"PENDING"`. -/
theorem request_cors_retry_policy (r : Response)
    (proxy direct : Except FetchError Response) (e e2 e3 : FetchError)
    (apiKey b : String) (cust : CustomerData) (amt now : Nat)
    (dl pl : Except FetchError ListResponse)
    (hcors : corsSignature e = true)
    (hother : corsSignature e2 = false)
    (hreq : request direct proxy = .error e3)
    (hreql : request dl pl = .error e3) :
    request (.ok r) proxy = .ok r ∧
    request (.error e) proxy = proxy ∧
    request (.error e2) proxy = .error e2 ∧
    createBilling apiKey cust amt now direct proxy =
      .error (.fetchErr e3) ∧
    checkBillingStatus apiKey b dl pl = "PENDING" := by
  refine ⟨rfl, by simp [request, hcors], by simp [request, hother],
    ?_, ?_⟩
  · simp [createBilling, hreq]
  · simp [checkBillingStatus, hreql]

/-- C9 witness: the CORS signature error on the direct path, a distinct
error on the other-branch check, and a relay that also fails. -/
theorem request_cors_retry_policy_witness :
    request (.ok (⟨true, 200, .dataJson none⟩ : Response))
      (.error ⟨"TypeError", "Failed to fetch"⟩) =
      .ok (⟨true, 200, .dataJson none⟩ : Response) ∧
    request (α := Response) (.error ⟨"TypeError", "Failed to fetch"⟩)
      (.error ⟨"AbortError", "aborted"⟩) =
      .error ⟨"AbortError", "aborted"⟩ ∧
    request (α := Response) (.error ⟨"SyntaxError", "bad json"⟩)
      (.error ⟨"AbortError", "aborted"⟩) =
      .error ⟨"SyntaxError", "bad json"⟩ ∧
    createBilling "sk" sampleCustomer 100 7
      (.error ⟨"TypeError", "Failed to fetch"⟩)
      (.error ⟨"AbortError", "aborted"⟩) =
      .error (.fetchErr ⟨"AbortError", "aborted"⟩) ∧
    checkBillingStatus "sk" "b1"
      (.error ⟨"TypeError", "Failed to fetch"⟩)
      (.error ⟨"AbortError", "aborted"⟩) = "PENDING" :=
  request_cors_retry_policy (⟨true, 200, .dataJson none⟩ : Response)
    (.error ⟨"AbortError", "aborted"⟩)
    (.error ⟨"TypeError", "Failed to fetch"⟩)
    ⟨"TypeError", "Failed to fetch"⟩ ⟨"SyntaxError", "bad json"⟩
    ⟨"AbortError", "aborted"⟩ "sk" "b1" sampleCustomer 100 7
    (.error ⟨"TypeError", "Failed to fetch"⟩)
    (.error ⟨"AbortError", "aborted"⟩)
    (by decide) (by decide) rfl rfl

/-- C10: every successful `createBilling` result has an empty `url`
(the create endpoint returns no hosted checkout URL), and the
transaction record built from it stores an empty `pix_url`. -/
theorem createBilling_url_empty (apiKey : String) (cust f : CustomerData)
    (amt now : Nat) (direct proxy : Except FetchError Response)
    (r : AbacateBillingResponse)
    (h : createBilling apiKey cust amt now direct proxy = .ok r) :
    r.url = "" ∧ (submitTx f r).pix_url = "" := by
  have hu : r.url = "" := by
    unfold createBilling at h
    split at h
    · exact absurd h (by simp)
    · split at h
      · exact absurd h (by simp)
      · split at h
        · exact absurd h (by simp)
        · exact absurd h (by simp)
        · exact absurd h (by simp)
        · split at h
          · exact absurd h (by simp)
          · split at h
            · exact absurd h (by simp)
            · rw [← Except.ok.inj h]
  exact ⟨hu, by simp [submitTx, hu]⟩

/-- C10 witness: a direct 200 response carrying the spec scenario's
`data` object. -/
theorem createBilling_url_empty_witness :
    createBilling "sk" sampleCustomer 100 7
      (.ok ⟨true, 200,
        .dataJson (some ⟨"b1", 150, "PENDING", some "000201", "img"⟩)⟩)
      (.ok ⟨true, 200, .dataJson none⟩) = .ok sampleBilling ∧
    sampleBilling.url = "" ∧
    (submitTx sampleCustomer sampleBilling).pix_url = "" :=
  have h : createBilling "sk" sampleCustomer 100 7
      (.ok ⟨true, 200,
        .dataJson (some ⟨"b1", 150, "PENDING", some "000201", "img"⟩)⟩)
      (.ok ⟨true, 200, .dataJson none⟩) = .ok sampleBilling := by
    simp [createBilling, request, sampleBilling]
  ⟨h, (createBilling_url_empty "sk" sampleCustomer sampleCustomer 100 7
      _ _ sampleBilling h).1,
    (createBilling_url_empty "sk" sampleCustomer sampleCustomer 100 7
      _ _ sampleBilling h).2⟩

/-- C4 counterexample: a submission whose amount is 50 (below 100) —
through the spec's `submit(customerData, amountMinorUnits)` surface over
the source logic — is not rejected: its first external action is the key
fetch, it proceeds through billing creation and succeeds with no error,
so no `ValidationError` precedes the network calls. -/
theorem submit_below_minimum_not_rejected_cex :
    50 < 100 ∧
    (handleSubmitAmt 50 ⟨true, some "sk_test_123", .ok sampleBilling⟩
      sampleCustomer).calls.head? = some .keyFetch ∧
    Call.createBillingCall 50 ∈
      (handleSubmitAmt 50 ⟨true, some "sk_test_123", .ok sampleBilling⟩
        sampleCustomer).calls ∧
    (handleSubmitAmt 50 ⟨true, some "sk_test_123", .ok sampleBilling⟩
      sampleCustomer).error = none := by
  refine ⟨by decide, rfl, ?_, rfl⟩
  simp [handleSubmitAmt]

/-- C4 (amended): the submission path performs no amount validation at
all — the amount requested from the provider is hardwired to
`DEFAULT_AMOUNT_CENTS = 100`, so no submission with a lower amount can
arise, and the outcome (error, transaction, whether any calls are made)
of the generalised submission is independent of the amount. -/
theorem submit_amount_not_validated (a : Nat) (env : SubmitEnv)
    (c : CustomerData) :
    DEFAULT_AMOUNT_CENTS = 100 ∧
    handleSubmit env c = handleSubmitAmt DEFAULT_AMOUNT_CENTS env c ∧
    (handleSubmitAmt a env c).error = (handleSubmit env c).error ∧
    (handleSubmitAmt a env c).transaction =
      (handleSubmit env c).transaction ∧
    ((handleSubmitAmt a env c).calls = [] ↔
      (handleSubmit env c).calls = []) := by
  obtain ⟨cfg, key, bill⟩ := env
  refine ⟨rfl, rfl, ?_⟩
  cases cfg <;> cases key <;> rcases bill with e | billing <;>
    simp [handleSubmit, handleSubmitAmt]

/-- C5 counterexample: in the source, submitting (with the provider
replying with amount 150) requests the billing with amount 100, not the
scenario's 150: the UI surface passes no amount and `handleSubmit` uses
the constant `DEFAULT_AMOUNT_CENTS`. -/
theorem submit_amount_hardwired_cex :
    (handleSubmit ⟨true, some "sk_test_123", .ok sampleBilling⟩
      sampleCustomer).calls.get? 1 =
      some (.createBillingCall DEFAULT_AMOUNT_CENTS) ∧
    DEFAULT_AMOUNT_CENTS = 100 ∧
    sampleBilling.amount = 150 ∧
    Call.createBillingCall 150 ∉
      (handleSubmit ⟨true, some "sk_test_123", .ok sampleBilling⟩
        sampleCustomer).calls := by
  refine ⟨rfl, rfl, rfl, ?_⟩
  simp [handleSubmit, handleSubmitAmt, DEFAULT_AMOUNT_CENTS,
    sampleBilling, submitTx]

/-- C5 (amended): with Supabase configured, a key present, and a
successful billing creation, the orchestrator ends in AwaitingPayment
(transaction set, status `PENDING`, awaiting screen rendered); the
persisted transaction carries the provider-echoed `billing.amount`
(150 in the scenario), while the amount requested from the provider is
the fixed `DEFAULT_AMOUNT_CENTS`, since the UI surface passes no
amount. -/
theorem submit_provider_amount_carried (env : SubmitEnv)
    (c : CustomerData) (billing : AbacateBillingResponse) (k : String)
    (hcfg : env.isSupabaseConfigured = true)
    (hkey : env.keyResult = some k)
    (hbill : env.billingResult = .ok billing) :
    (handleSubmit env c).transaction = some billing ∧
    (handleSubmit env c).paymentStatus = .PENDING ∧
    uiScreen (handleSubmit env c).transaction
      (handleSubmit env c).paymentStatus = .awaiting ∧
    Call.saveTx (submitTx c billing) ∈ (handleSubmit env c).calls ∧
    (submitTx c billing).amount = billing.amount ∧
    Call.createBillingCall DEFAULT_AMOUNT_CENTS ∈
      (handleSubmit env c).calls ∧
    Call.startPoll billing.id ∈ (handleSubmit env c).calls := by
  obtain ⟨cfg, key, bill⟩ := env
  cases hcfg
  cases hkey
  cases hbill
  simp [handleSubmit, handleSubmitAmt, uiScreen, submitTx]

/-- C5 witness: the spec scenario — key `"sk_test_123"`, provider reply
`{id:"b1", amount:150, status:"PENDING", brCode}`. -/
theorem submit_provider_amount_carried_witness :
    (handleSubmit ⟨true, some "sk_test_123", .ok sampleBilling⟩
      sampleCustomer).transaction = some sampleBilling ∧
    sampleBilling.amount = 150 ∧
    (handleSubmit ⟨true, some "sk_test_123", .ok sampleBilling⟩
      sampleCustomer).paymentStatus = .PENDING ∧
    uiScreen (handleSubmit ⟨true, some "sk_test_123", .ok sampleBilling⟩
        sampleCustomer).transaction
      (handleSubmit ⟨true, some "sk_test_123", .ok sampleBilling⟩
        sampleCustomer).paymentStatus = .awaiting ∧
    (submitTx sampleCustomer sampleBilling).amount = 150 :=
  have h := submit_provider_amount_carried
    ⟨true, some "sk_test_123", .ok sampleBilling⟩
    sampleCustomer sampleBilling "sk_test_123" rfl rfl rfl
  ⟨h.1, rfl, h.2.1, h.2.2.1, by rw [h.2.2.2.2.1]; rfl⟩

/-- C6 counterexample: on a structured remote error whose code
(`"XX000"`) is outside the known set, `getAbacateApiKey` returns null
even though the local fallback holds `"sk_test_123"` — it does not
degrade to the fallback, contradicting the claim that only an empty pair
of sources yields null. -/
theorem getKey_unknown_error_ignores_fallback_cex :
    ("XX000" ∈ knownGetCodes) = False ∧
    getAbacateApiKey true (some "sk_test_123") (.dbError "XX000") =
      none ∧
    (some "sk_test_123" : Option String) ≠ none := by
  refine ⟨by simp [knownGetCodes], ?_, by simp⟩
  simp [getAbacateApiKey, knownGetCodes]

/-- C6 (amended): `getAbacateApiKey` never raises (exception-free return
type); on a known missing-table/missing-row code it returns the local
fallback (e.g. `"sk_test_123"` when stored); on a thrown exception
during the remote attempt it also reads the fallback; on an unconfigured
client it reads the fallback directly; but on any other structured
remote error it returns null without consulting the fallback. -/
theorem getAbacateApiKey_fallback_policy (l : Option String)
    (c c2 : String) (r : RemoteReadOutcome)
    (hc : c ∈ knownGetCodes) (hc2 : c2 ∉ knownGetCodes) :
    getAbacateApiKey true l (.dbError c) = l ∧
    getAbacateApiKey true l .thrown = l ∧
    getAbacateApiKey false l r = l ∧
    getAbacateApiKey true l (.dbError c2) = none := by
  refine ⟨?_, rfl, rfl, ?_⟩
  · simp [getAbacateApiKey, hc]
  · simp [getAbacateApiKey, hc2]

/-- C6 witness: the spec scenario — error code `"42P01"` with local
fallback `"sk_test_123"` returns `"sk_test_123"`; code `"XX000"` is
outside the known set. -/
theorem getAbacateApiKey_fallback_policy_witness :
    getAbacateApiKey true (some "sk_test_123") (.dbError "42P01") =
      some "sk_test_123" ∧
    getAbacateApiKey true (some "sk_test_123") .thrown =
      some "sk_test_123" ∧
    getAbacateApiKey false (some "sk_test_123") (.ok none) =
      some "sk_test_123" ∧
    getAbacateApiKey true (some "sk_test_123") (.dbError "XX000") =
      none :=
  getAbacateApiKey_fallback_policy (some "sk_test_123") "42P01" "XX000"
    (.ok none) (by decide) (by decide)

/-- C7: `saveAbacateApiKeyToDB` never fails its caller (exception-free
return type: even the `throw` on an unrecognised code is caught by its
own `catch`): on a known table-missing code the key is written to the
local fallback slot, on a thrown exception during the remote attempt the
key is likewise written to the fallback, and a successful remote write
deletes the local fallback value. -/
theorem saveAbacateApiKeyToDB_never_fails (l : Option String)
    (k c : String) (hc : c ∈ knownSaveCodes) :
    saveAbacateApiKeyToDB true l k (.dbError c) = some k ∧
    saveAbacateApiKeyToDB true l k .thrown = some k ∧
    saveAbacateApiKeyToDB true l k .ok = none := by
  refine ⟨?_, rfl, rfl⟩
  simp [saveAbacateApiKeyToDB, hc]

/-- C7 witness: code `"42P01"`, key `"sk_test_123"`, a stale fallback
`"sk_old"`. -/
theorem saveAbacateApiKeyToDB_never_fails_witness :
    saveAbacateApiKeyToDB true (some "sk_old") "sk_test_123"
      (.dbError "42P01") = some "sk_test_123" ∧
    saveAbacateApiKeyToDB true (some "sk_old") "sk_test_123" .thrown =
      some "sk_test_123" ∧
    saveAbacateApiKeyToDB true (some "sk_old") "sk_test_123" .ok =
      none :=
  saveAbacateApiKeyToDB_never_fails (some "sk_old") "sk_test_123"
    "42P01" (by decide)

/-- C8: the billing-creation payload carries `customer.cellphone` and
`customer.taxId` exactly as typed (display punctuation preserved), while
the transaction persisted after a successful billing creation stores
`customer_cpf` as `cleanString` of the typed cpf, which consists of
digits only. -/
theorem payload_punctuation_and_cpf_digits (c f : CustomerData)
    (amt now : Nat) (billing : AbacateBillingResponse) :
    (createBillingPayload c amt now).customer.cellphone = c.phone ∧
    (createBillingPayload c amt now).customer.taxId = c.cpf ∧
    (submitTx f billing).customer_cpf = cleanString f.cpf ∧
    ((cleanString f.cpf).toList.all Char.isDigit) = true := by
  refine ⟨rfl, rfl, rfl, ?_⟩
  have hl : (cleanString f.cpf).toList = f.cpf.toList.filter Char.isDigit :=
    rfl
  rw [hl, List.all_eq_true]
  intro a ha
  exact (List.mem_filter.mp ha).2

end Pix
